import Mathlib
set_option linter.unnecessarySeqFocus false

/-! Shallow embedding of the study-partner pairing cog
    (src/cogs/study_partner.py) together with the persistence module
    (src/storage.py), and proofs about the pairing queue, the session
    registry, the idle sweeper and transcript emission. -/

namespace StudyPartnerBot

/-- A message captured by StudyPartner.on_message into session metadata
    (study_partner.py, lines 451-456). Timestamps are modelled as integer
    epoch seconds; created_at is optional because messages normalized while
    loading persisted sessions can end up with a None timestamp (lines 64-70). -/
structure CachedMsg where
  id : Nat
  created_at : Option Int
  author_name : String
  content : String
deriving DecidableEq

/-- A message returned by a channel-history fetch (text_chan.history). -/
structure HistMsg where
  id : Nat
  created_at : Int
  author_name : String
  author_id : Nat
  content : String
deriving DecidableEq

/-- The session metadata dict built at pairing time (study_partner.py,
    lines 213-219). The empty_since field is always None on every modelled
    code path and is omitted. A session is ACTIVE exactly while its record
    is present in the cog's active map. -/
structure SessionMeta where
  members : List Nat
  text_channel_id : Nat
  created_at : Int
  messages : List CachedMsg
deriving DecidableEq

/-- In-memory cog state: self.queue (FIFO of user ids, head first) and
    self.active (dict text_channel_id -> metadata, insertion ordered). -/
structure CogState where
  queue : List Nat
  active : List (Nat × SessionMeta)
deriving DecidableEq

/-- Python runtime errors relevant to the embedded calls. -/
inductive PyError where
  | attributeError
  | typeError
deriving DecidableEq

/-- Contents of the durable Persistence Store for the queue and the session
    records. src/storage.py defines no table and no function for either, so
    on the real code paths this store is never read nor written; see
    storageAttrs below. -/
structure Store where
  queueRec : Option (List Nat)
  sessions : List (Nat × SessionMeta)
deriving DecidableEq

/-- The top-level functions defined in src/storage.py, i.e. the attributes
    of the storage module that attribute lookup can resolve. -/
def storageAttrs : List String :=
  ["_conn", "init_db", "_ensure_column", "_migrate_additional_columns",
   "set_cog_enabled", "is_cog_enabled", "get_guild_cogs", "get_guild_config",
   "set_guild_config", "get_subjects_for_guild", "create_subject", "add_ping",
   "update_ping_time", "get_all_pings", "get_all_subjects"]

/-- Whether storage.<n> resolves; a missing attribute raises AttributeError. -/
def storageHasAttr (n : String) : Bool := storageAttrs.contains n

/-- The cog's calls to storage.save_queue(list(self.queue)) sit in try/except
    blocks (study_partner.py, lines 175-178 and 242-245). The attribute is
    missing from storage.py, so the call raises AttributeError and the handler
    discards it. The then-branch write effect is Modelled from the spec:
    storage.save_queue is absent from src/storage.py and its intended effect is
    SaveQueue of the full ordered queue, per the spec's Persistence Store
    interface; that branch is unreachable on the real module. -/
def trySaveQueue (store : Store) (q : List Nat) : Store :=
  if storageHasAttr "save_queue" then { store with queueRec := some q } else store

/-- storage.save_session(meta) under try/except (lines 223-226, 457-460).
    Missing attribute: AttributeError raised and swallowed. The then-branch is
    Modelled from the spec: SaveSession keyed by the session's channel id;
    unreachable on the real module. -/
def trySaveSession (store : Store) (meta : SessionMeta) : Store :=
  if storageHasAttr "save_session" then
    { store with sessions :=
        (store.sessions.filter (fun p => p.1 != meta.text_channel_id))
          ++ [(meta.text_channel_id, meta)] }
  else store

/-- storage.delete_session(sid) under try/except (lines 420-424). Missing
    attribute: AttributeError raised and swallowed. The then-branch is
    Modelled from the spec: DeleteSession(id); unreachable on the real module. -/
def tryDeleteSession (store : Store) (sid : Nat) : Store :=
  if storageHasAttr "delete_session" then
    { store with sessions := store.sessions.filter (fun p => p.1 != sid) }
  else store

/-- storage.load_queue() as called by StudyPartner.__init__ (lines 37-42).
    Missing attribute: AttributeError. The ok-branch is Modelled from the
    spec: LoadQueue returning the stored ordered id list; unreachable. -/
def tryLoadQueue (store : Store) : Except PyError (List Nat) :=
  if storageHasAttr "load_queue" then .ok (store.queueRec.getD []) else .error .attributeError

/-- storage.load_sessions() as called by StudyPartner.__init__ (lines 43-80).
    Missing attribute: AttributeError. The ok-branch is Modelled from the
    spec: LoadAllSessions; unreachable. -/
def tryLoadSessions (store : Store) : Except PyError (List (Nat × SessionMeta)) :=
  if storageHasAttr "load_sessions" then .ok store.sessions else .error .attributeError

/-- __init__ queue recovery (lines 36-42): q = storage.load_queue(); the
    AttributeError lands in the bare except and self.queue stays deque(). -/
def initQueue (store : Store) : List Nat :=
  match tryLoadQueue store with
  | .ok q => if q.isEmpty then [] else q
  | .error _ => []

/-- __init__ session recovery (lines 43-80): the AttributeError from
    storage.load_sessions lands in the bare except and self.active stays empty.
    The ok-branch rebuilds the active dict keyed by text_channel_id
    (timestamp normalization is the identity in this integer-time model). -/
def initActive (store : Store) : List (Nat × SessionMeta) :=
  match tryLoadSessions store with
  | .ok ss => ss
  | .error _ => []

/-- The cog state produced by constructing StudyPartner anew over a given
    store state: a process restart. -/
def restartState (store : Store) : CogState :=
  { queue := initQueue store, active := initActive store }

/-- Row values the guild-config reader consults: the guild_items rows with
    item 'pairing' and item 'partner_log' (column main; none when the row is
    absent), and the legacy guilds table rows (guild_id, pairing, partner_log). -/
structure StorageDB where
  itemsPairingMain : Option Nat
  itemsPartnerLogMain : Option Nat
  guilds : List (String × Option Nat × Option Nat)

/-- The dict returned by storage.get_guild_config. -/
structure GuildConfig where
  pairing : Option Nat
  partner_log : Option Nat
deriving DecidableEq

/-- storage.get_guild_config(guild_id) (storage.py, lines 205-225): prefer the
    global guild_items rows; int(r[0]) if r and r[0] else None keeps only a
    present, non-zero value. Fall back to the legacy guilds table row. -/
def get_guild_config (db : StorageDB) (guild_id : Nat) : Option GuildConfig :=
  if db.itemsPairingMain.isSome || db.itemsPartnerLogMain.isSome then
    some { pairing := db.itemsPairingMain.bind (fun v => if v != 0 then some v else none),
           partner_log := db.itemsPartnerLogMain.bind (fun v => if v != 0 then some v else none) }
  else
    match (db.guilds.find? (fun r => r.1 == toString guild_id)).map (fun r => r.2) with
    | none => none
    | some (p, pl) => some { pairing := p, partner_log := pl }

/-- Calling storage.get_guild_config with an explicit positional argument
    list. The def has exactly one required positional parameter and no
    default, so binding any other arity raises TypeError before the body runs. -/
def call_get_guild_config (db : StorageDB) (args : List Nat) :
    Except PyError (Option GuildConfig) :=
  match args with
  | [gid] => .ok (get_guild_config db gid)
  | _ => .error .typeError

/-- StudyPartner._get_config (study_partner.py, lines 118-123): it invokes
    storage.get_guild_config() with zero arguments; the TypeError is caught by
    the surrounding try/except and None is returned. -/
def getConfig (db : StorageDB) : Option GuildConfig :=
  match call_get_guild_config db [] with
  | .ok c => c
  | .error _ => none

/-- The pairing-channel restriction test in findpartner (lines 140-151):
    with a configured pairing channel id, invocations from any other channel
    are rejected. -/
def pairingRestricted (db : StorageDB) (ch : Nat) : Bool :=
  match getConfig db with
  | some conf =>
    match conf.pairing with
    | some pid => ch != pid
    | none => false
  | none => false

/-- The transcript-destination choice in _log_session (lines 359-379):
    a configured, truthy partner_log id whose channel resolves wins; otherwise
    the fallback is find-or-create of the channel named findpartner-logs. -/
inductive LogsDest where
  | configured (chanId : Nat)
  | fallbackFindpartnerLogs
deriving DecidableEq

/-- Resolution of the logs destination; getChanOk models guild.get_channel
    returning a live channel for the configured id. -/
def resolveLogsDest (db : StorageDB) (getChanOk : Nat → Bool) : LogsDest :=
  match getConfig db with
  | some conf =>
    match conf.partner_log with
    | some pid => if pid != 0 && getChanOk pid then .configured pid else .fallbackFindpartnerLogs
    | none => .fallbackFindpartnerLogs
  | none => .fallbackFindpartnerLogs

/-- Whether a user id is a member of any active session (lines 157-161). -/
def memberActive (act : List (Nat × SessionMeta)) (x : Nat) : Bool :=
  act.any (fun p => p.2.members.contains x)

/-- The number of active sessions having x among their members. -/
def activeCount (act : List (Nat × SessionMeta)) (x : Nat) : Nat :=
  (act.filter (fun p => p.2.members.contains x)).length

/-- Python dict assignment d[k] = v on the insertion-ordered active map:
    replace in place when the key exists, else append. -/
def dictInsert (d : List (Nat × SessionMeta)) (k : Nat) (v : SessionMeta) :
    List (Nat × SessionMeta) :=
  if d.any (fun p => p.1 == k) then
    d.map (fun p => if p.1 == k then (k, v) else p)
  else d ++ [(k, v)]

/-- Python del d[k] (always guarded by a containment check in the source). -/
def dictRemove (d : List (Nat × SessionMeta)) (k : Nat) : List (Nat × SessionMeta) :=
  d.filter (fun p => p.1 != k)

/-- The outcome findpartner produces for its invoker. -/
inductive FPResult where
  | ignored          -- author.bot: silently return (line 154)
  | wrongChannel     -- configured pairing-channel restriction (line 150)
  | alreadyActive    -- member of an active session (line 160)
  | toggledOff       -- removed from the queue (lines 163-179)
  | queued           -- appended to the queue (lines 239-255)
  | paired (chanId : Nat)  -- session created (lines 181-237)
  | exn              -- unhandled exception propagated to the command layer
deriving DecidableEq

/-- External collaborator outcomes for one findpartner invocation. -/
structure Env where
  isBot : Nat → Bool        -- author.bot
  fetchOk : Nat → Bool      -- guild.get_member or guild.fetch_member resolves this id
  provision : Option Nat    -- guild.create_text_channel: fresh channel id, or none when it raises
  now : Int                 -- datetime.now at pairing time

/-- The body of StudyPartner.findpartner (lines 129-255) over explicit queue
    and active-map state. Discord replies, reactions and the starter message
    are modelled as fire-and-forget sends that do not fail. The tail call at
    line 191 (the waiting user cannot be fetched) re-runs the entire command
    on the already-shortened queue. -/
def fpLoop (env : Env) (db : StorageDB) (a ch : Nat) (q : List Nat)
    (act : List (Nat × SessionMeta)) (store : Store) : FPResult × CogState × Store :=
  if pairingRestricted db ch then (.wrongChannel, ⟨q, act⟩, store)
  else if env.isBot a then (.ignored, ⟨q, act⟩, store)
  else if memberActive act a then (.alreadyActive, ⟨q, act⟩, store)
  else if q.contains a then
    (.toggledOff, ⟨q.erase a, act⟩, trySaveQueue store (q.erase a))
  else
    match q with
    | [] => (.queued, ⟨[a], act⟩, trySaveQueue store [a])
    | other :: rest =>
      if env.fetchOk other then
        match env.provision with
        | some cid =>
          (.paired cid,
           ⟨rest, dictInsert act cid ⟨[a, other], cid, env.now, []⟩⟩,
           trySaveSession store ⟨[a, other], cid, env.now, []⟩)
        | none => (.exn, ⟨rest, act⟩, store)
      else
        fpLoop env db a ch rest act store

/-- StudyPartner.findpartner invoked inside a guild by author a from
    channel ch, over in-memory state st and store state. -/
def findpartnerRun (env : Env) (db : StorageDB) (st : CogState) (store : Store)
    (a ch : Nat) : FPResult × CogState × Store :=
  fpLoop env db a ch st.queue st.active store

/-- One findpartner invocation in a call sequence. -/
structure Step where
  env : Env
  author : Nat
  chan : Nat

/-- Folding a sequence of findpartner invocations over the state. -/
def runSteps (db : StorageDB) (steps : List Step) (st : CogState) (store : Store) :
    CogState × Store :=
  steps.foldl
    (fun acc s =>
      let r := findpartnerRun s.env db acc.1 acc.2 s.author s.chan
      (r.2.1, r.2.2))
    (st, store)

/-- The two safety properties of the pairing state claimed by the spec. -/
def PairingInvariant (st : CogState) : Prop :=
  (∀ x, activeCount st.active x ≤ 1) ∧
  (∀ x, x ∈ st.queue → memberActive st.active x = false)

/-- The strengthened inductive invariant used to establish PairingInvariant. -/
def InvS (st : CogState) : Prop :=
  st.queue.Nodup ∧ (st.active.map Prod.fst).Nodup ∧
  (∀ x, activeCount st.active x ≤ 1) ∧
  (∀ x, x ∈ st.queue → activeCount st.active x = 0)

/- ---- Transcript building and session closure (_log_session) ---- -/

/-- The transcript line rendered from a cached message (line 344); integer
    timestamps stand in for isoformat renderings, and a missing timestamp
    renders as str(None). -/
def cachedLine (m : CachedMsg) : String :=
  let ts := match m.created_at with
            | some t => toString t
            | none => "None"
  "[" ++ ts ++ "] " ++ m.author_name ++ ": " ++ m.content

/-- The transcript line rendered from a late-fetched history message (line 355). -/
def histLine (m : HistMsg) : String :=
  "[" ++ toString m.created_at ++ "] " ++ m.author_name ++ " (" ++
    toString m.author_id ++ "): " ++ m.content

/-- The late-fetched history messages kept by the second loop of _log_session
    (lines 346-357): those whose id is not among the cached message ids. -/
def lateHist (msgs : List CachedMsg) (hist : List HistMsg) : List HistMsg :=
  hist.filter (fun h => !((msgs.map (fun c => c.id)).contains h.id))

/-- The transcript body of _log_session (lines 336-357): the cached lines in
    capture order, then the deduplicated history lines in fetch order. -/
def transcriptLines (msgs : List CachedMsg) (hist : List HistMsg) : List String :=
  msgs.map cachedLine ++ (lateHist msgs hist).map histLine

/-- The timestamps of the transcript entries, in emission order. -/
def transcriptTimes (msgs : List CachedMsg) (hist : List HistMsg) : List (Option Int) :=
  msgs.map (fun m => m.created_at) ++ (lateHist msgs hist).map (fun h => some h.created_at)

/-- External collaborator outcomes for closure and sweeping. -/
structure SweepEnv where
  now : Int                       -- datetime.now at the sweep or closure
  channelExists : Nat → Bool      -- bot.get_channel / guild.get_channel finds the session channel
  historyLast : Nat → Option Int  -- cleaner_loop's history(limit=1): newest message time, none when empty or the fetch raises
  history : Nat → List HistMsg    -- _log_session's history(limit=500, oldest_first=True); [] when the fetch raises
  fallbackLogsOk : Bool           -- find-or-create of the findpartner-logs channel succeeded
  getChanOk : Nat → Bool          -- guild.get_channel resolves a configured partner_log id
  memberName : Nat → String       -- str(guild.get_member(uid))
  channelName : Nat → Option String  -- name attribute of the session channel

/-- The heading block of the transcript artifact (lines 386-394). -/
def transcriptHeading (env : SweepEnv) (meta : SessionMeta) (reason : String) : String :=
  "----- PARTNER CHANNEL LOG -----\n\n" ++
  "Channel ID: " ++ toString meta.text_channel_id ++ "\n" ++
  "Created At: " ++ toString meta.created_at ++ "\n" ++
  "Closed At: " ++ toString env.now ++ "\n" ++
  "Closure Reason: " ++ reason ++ "\n" ++
  "Members: " ++ String.intercalate ", " (meta.members.map env.memberName) ++ "\n" ++
  "Channel Name: " ++ (match env.channelName meta.text_channel_id with
                       | some n => n
                       | none => "unknown") ++ "\n\n"

/-- The transcript artifact handed to the logs channel. -/
structure TranscriptDoc where
  reason : String
  heading : String
  lines : List String
deriving DecidableEq

/-- StudyPartner._log_session (lines 319-437): build the transcript from the
    cached messages plus deduplicated channel history (only when the session
    channel still exists), resolve the logs destination, and return without
    any cleanup when no destination resolves or the transcript is empty
    (line 381). Otherwise the artifact is posted (delivery and its chunked
    fallback are best-effort), the persisted session delete is attempted
    (AttributeError swallowed), the session is removed from the active map,
    and the channel delete is attempted. -/
def log_session (env : SweepEnv) (db : StorageDB) (st : CogState) (store : Store)
    (meta : SessionMeta) (reason : String) : Option TranscriptDoc × CogState × Store :=
  let hist := if env.channelExists meta.text_channel_id
              then env.history meta.text_channel_id else []
  let lines := transcriptLines meta.messages hist
  let logsOk := match resolveLogsDest db env.getChanOk with
                | .configured _ => true
                | .fallbackFindpartnerLogs => env.fallbackLogsOk
  if !logsOk || lines.isEmpty then (none, st, store)
  else
    (some ⟨reason, transcriptHeading env meta reason, lines⟩,
     { st with active := dictRemove st.active meta.text_channel_id },
     tryDeleteSession store meta.text_channel_id)

/-- The auto-close threshold (study_partner.py, line 27). -/
def AUTO_CLOSE_SECONDS : Int := 300

/-- The last-activity timestamp the cleaner computes for a session
    (lines 481-505): the last cached message's timestamp; with no cached
    messages, the newest channel-history message; with neither, created_at. -/
def lastActivity (env : SweepEnv) (meta : SessionMeta) : Int :=
  match (match meta.messages.getLast? with
         | some m => m.created_at
         | none => env.historyLast meta.text_channel_id) with
  | some t => t
  | none => meta.created_at

/-- What the cleaner did to one session during a tick. -/
inductive SweepOutcome where
  | channelGone                   -- channel missing: dropped from active, nothing else (lines 474-479)
  | stillActive                   -- below the threshold: untouched (lines 507-510)
  | autoClosed (reason : String) (doc : Option TranscriptDoc)  -- closure path (lines 512-528)
deriving DecidableEq

/-- The cleaner_loop body for a single active session (lines 472-528). When
    the channel is gone the session is deleted from the active map and the
    loop continues; otherwise the session is closed through _log_session
    exactly when now - lastActivity reaches AUTO_CLOSE_SECONDS, and the
    closure notice sent into the channel is a fire-and-forget send. -/
def cleanerStep (env : SweepEnv) (db : StorageDB) (st : CogState) (store : Store)
    (cid : Nat) (meta : SessionMeta) : SweepOutcome × CogState × Store :=
  if !env.channelExists cid then
    (.channelGone, { st with active := dictRemove st.active cid }, store)
  else if env.now - lastActivity env meta < AUTO_CLOSE_SECONDS then
    (.stillActive, st, store)
  else
    let r := log_session env db st store meta "Auto-closed due to inactivity"
    (.autoClosed "Auto-closed due to inactivity" r.1,
     { r.2.1 with active := dictRemove r.2.1.active cid }, r.2.2)

/-- One cleaner_loop tick: the loop iterates over a snapshot of the active
    items while the state is updated underneath (line 472). -/
def cleanerLoop (env : SweepEnv) (db : StorageDB) (st : CogState) (store : Store) :
    List (Nat × SweepOutcome) × CogState × Store :=
  st.active.foldl
    (fun acc p =>
      let r := cleanerStep env db acc.2.1 acc.2.2 p.1 p.2
      (acc.1 ++ [(p.1, r.1)], r.2.1, r.2.2))
    ([], st, store)

/- ---- Concrete fixtures used by witnesses and counterexamples ---- -/

/-- The empty persistence store. -/
def store0 : Store := ⟨none, []⟩

/-- A database with no configuration rows. -/
def db0 : StorageDB := ⟨none, none, []⟩

/-- An environment where every collaborator call succeeds. -/
def env0 : Env :=
  { isBot := fun _ => false, fetchOk := fun _ => true, provision := some 100, now := 0 }

/-- An environment where channel provisioning raises. -/
def envNoProv : Env :=
  { isBot := fun _ => false, fetchOk := fun _ => true, provision := none, now := 0 }

/-- A cached message fixture. -/
def msgB : CachedMsg := ⟨2, some 10, "alice", "hi"⟩

/-- The late starter message fixture: older than msgB, never cached because
    its author is the bot. -/
def histA : HistMsg := ⟨1, 5, "bot", 99, "Hello"⟩

/-- History copy of msgB as the platform returns it. -/
def histB : HistMsg := ⟨2, 10, "alice", 7, "hi"⟩

/-- A session fixture whose channel is 5 with one cached message. -/
def meta5 : SessionMeta := ⟨[1, 2], 5, 0, [msgB]⟩

/-- A session fixture with no cached messages, created at time 0. -/
def meta6 : SessionMeta := ⟨[3, 4], 6, 0, []⟩

/-- A sweep environment: channels exist, history holds the starter message
    and msgB, the fallback logs channel resolves, and the clock reads 311,
    which is 301 seconds after meta5's last activity at 10. -/
def senv301 : SweepEnv :=
  { now := 311, channelExists := fun _ => true,
    historyLast := fun _ => none, history := fun _ => [histA, histB],
    fallbackLogsOk := true, getChanOk := fun _ => true,
    memberName := fun u => toString u, channelName := fun _ => some "study-a-b" }

/-- Like senv301 but the clock reads 110: 100 seconds after meta5's last
    activity at 10. -/
def senv100 : SweepEnv :=
  { senv301 with now := 110 }

/-- A sweep environment where the session channel has been deleted
    externally, at a clock far past the threshold. -/
def senvGone : SweepEnv :=
  { senv301 with now := 1000, channelExists := fun _ => false }

/-- A sweep environment for channel 6: no cached messages, channel history
    holds one message at time 290, the clock reads 310. -/
def senvHist : SweepEnv :=
  { now := 310, channelExists := fun _ => true,
    historyLast := fun _ => some 290, history := fun _ => [],
    fallbackLogsOk := true, getChanOk := fun _ => true,
    memberName := fun u => toString u, channelName := fun _ => some "study-c-d" }

/-- The two-request scenario: participant 1 then participant 2, both from
    channel 9. -/
def steps12 : List Step := [⟨env0, 1, 9⟩, ⟨env0, 2, 9⟩]

/- ---- Helper lemmas ---- -/

/-- _get_config returns None on every database: the zero-argument call to
    storage.get_guild_config always raises TypeError. -/
theorem getConfig_none (db : StorageDB) : getConfig db = none := rfl

/-- The pairing-channel restriction test never fires. -/
theorem pairingRestricted_false (db : StorageDB) (ch : Nat) :
    pairingRestricted db ch = false := rfl

/-- The logs destination always resolves to the findpartner-logs fallback. -/
theorem resolveLogsDest_fallback (db : StorageDB) (f : Nat → Bool) :
    resolveLogsDest db f = .fallbackFindpartnerLogs := rfl

/-- storage.py has no save_queue attribute, so the attempted queue write
    leaves the store untouched. -/
theorem trySaveQueue_eq (store : Store) (q : List Nat) :
    trySaveQueue store q = store := rfl

/-- storage.py has no save_session attribute, so the attempted session write
    leaves the store untouched. -/
theorem trySaveSession_eq (store : Store) (meta : SessionMeta) :
    trySaveSession store meta = store := rfl

/-- storage.py has no delete_session attribute, so the attempted session
    delete leaves the store untouched. -/
theorem tryDeleteSession_eq (store : Store) (sid : Nat) :
    tryDeleteSession store sid = store := rfl


/-- Membership count of a cons cell. -/
theorem activeCount_cons (p : Nat × SessionMeta) (t : List (Nat × SessionMeta))
    (x : Nat) :
    activeCount (p :: t) x = (if x ∈ p.2.members then 1 else 0) + activeCount t x := by
  by_cases h : x ∈ p.2.members <;>
    simp [activeCount, List.filter_cons, h, Nat.add_comm]

/-- Not being a member of any active session is the same as belonging to
    zero active sessions. -/
theorem memberActive_false_iff (act : List (Nat × SessionMeta)) (x : Nat) :
    memberActive act x = false ↔ activeCount act x = 0 := by
  induction act with
  | nil => simp [memberActive, activeCount]
  | cons p t ih =>
    rw [activeCount_cons]
    by_cases h : x ∈ p.2.members
    · simp [memberActive, h]
    · simpa [memberActive, h] using ih

/-- Replacement at an absent key is the identity. -/
theorem map_replace_of_not_mem (act : List (Nat × SessionMeta)) (k : Nat)
    (v : SessionMeta) (hk : k ∉ act.map Prod.fst) :
    act.map (fun p => if p.1 == k then (k, v) else p) = act := by
  induction act with
  | nil => rfl
  | cons p t ih =>
    have hk1 : ¬ p.1 = k := by
      intro e
      exact hk (by rw [List.map_cons, ← e]; exact List.mem_cons_self _ _)
    have hk2 : k ∉ t.map Prod.fst := by
      intro hm
      exact hk (by rw [List.map_cons]; exact List.mem_cons_of_mem _ hm)
    rw [List.map_cons, ih hk2, if_neg (by simp [hk1])]

/-- Membership count after in-place replacement, given unique keys. -/
theorem activeCount_replace_le (act : List (Nat × SessionMeta)) (k : Nat)
    (v : SessionMeta) (x : Nat) (hk : (act.map Prod.fst).Nodup) :
    activeCount (act.map (fun p => if p.1 == k then (k, v) else p)) x ≤
      activeCount act x + (if x ∈ v.members then 1 else 0) := by
  induction act with
  | nil => simp [activeCount]
  | cons p t ih =>
    rw [List.map_cons, List.nodup_cons] at hk
    by_cases hp : p.1 = k
    · have ht := map_replace_of_not_mem t k v (by rw [← hp]; exact hk.1)
      rw [List.map_cons, if_pos (by simp [hp]), ht, activeCount_cons,
        activeCount_cons]
      by_cases hv : x ∈ v.members <;> by_cases hq : x ∈ p.2.members <;>
        simp [hv, hq] <;> omega
    · have hrec := ih hk.2
      rw [List.map_cons, if_neg (by simp [hp]), activeCount_cons, activeCount_cons]
      by_cases hv : x ∈ v.members <;> by_cases hq : x ∈ p.2.members <;>
        simp [hv, hq] at hrec ⊢ <;> omega

/-- Membership count after appending a fresh record. -/
theorem activeCount_append_single (act : List (Nat × SessionMeta)) (k : Nat)
    (v : SessionMeta) (x : Nat) :
    activeCount (act ++ [(k, v)]) x =
      activeCount act x + (if x ∈ v.members then 1 else 0) := by
  induction act with
  | nil =>
    rw [List.nil_append, activeCount_cons]
    simp [activeCount]
  | cons p t ih =>
    rw [List.cons_append, activeCount_cons, activeCount_cons, ih]
    omega

/-- Membership count after dict assignment, given unique keys. -/
theorem activeCount_dictInsert_le (act : List (Nat × SessionMeta)) (k : Nat)
    (v : SessionMeta) (x : Nat) (hk : (act.map Prod.fst).Nodup) :
    activeCount (dictInsert act k v) x ≤
      activeCount act x + (if x ∈ v.members then 1 else 0) := by
  unfold dictInsert
  by_cases h : (act.any fun p => p.1 == k) = true
  · rw [if_pos h]
    exact activeCount_replace_le act k v x hk
  · rw [if_neg h]
    exact le_of_eq (activeCount_append_single act k v x)

/-- Replacement does not change the key sequence. -/
theorem keys_map_replace (act : List (Nat × SessionMeta)) (k : Nat)
    (v : SessionMeta) :
    (act.map (fun p => if p.1 == k then (k, v) else p)).map Prod.fst =
      act.map Prod.fst := by
  induction act with
  | nil => rfl
  | cons p t ih =>
    rw [List.map_cons, List.map_cons, List.map_cons, ih]
    by_cases hp : p.1 = k
    · rw [if_pos (by simp [hp])]
      simp [hp]
    · rw [if_neg (by simp [hp])]

/-- Key uniqueness is preserved by dict assignment. -/
theorem keys_dictInsert_nodup (act : List (Nat × SessionMeta)) (k : Nat)
    (v : SessionMeta) (hk : (act.map Prod.fst).Nodup) :
    ((dictInsert act k v).map Prod.fst).Nodup := by
  unfold dictInsert
  by_cases h : (act.any fun p => p.1 == k) = true
  · rw [if_pos h, keys_map_replace]
    exact hk
  · rw [if_neg h]
    have hnk : k ∉ act.map Prod.fst := by
      intro hm
      rcases List.mem_map.1 hm with ⟨p, hp, he⟩
      exact h (List.any_eq_true.2 ⟨p, hp, by simp [he]⟩)
    rw [List.map_append]
    simp only [List.map_cons, List.map_nil]
    exact List.Nodup.append hk (List.nodup_singleton k)
      (List.disjoint_singleton.2 hnk)

/-- Dict assignment stores the assigned record. -/
theorem mem_dictInsert_self (act : List (Nat × SessionMeta)) (k : Nat)
    (v : SessionMeta) : (k, v) ∈ dictInsert act k v := by
  unfold dictInsert
  by_cases h : (act.any fun p => p.1 == k) = true
  · rw [if_pos h]
    rcases List.any_eq_true.1 h with ⟨p, hp, he⟩
    exact List.mem_map.2 ⟨p, hp, by simp [he]⟩
  · rw [if_neg h]
    simp

/-- A false contains test means non-membership. -/
theorem not_mem_of_contains_false {l : List Nat} {a : Nat}
    (h : l.contains a = false) : a ∉ l := by
  simpa using h

/-- findpartner preserves the strengthened pairing invariant, whatever the
    collaborator outcomes. -/
theorem fpLoop_inv (env : Env) (db : StorageDB) (a ch : Nat) :
    ∀ (q : List Nat) (act : List (Nat × SessionMeta)) (store : Store),
      InvS ⟨q, act⟩ → InvS (fpLoop env db a ch q act store).2.1 := by
  intro q
  induction q with
  | nil =>
    intro act store h
    obtain ⟨h1, h2, h3, h4⟩ := h
    unfold fpLoop
    simp only [pairingRestricted_false, Bool.false_eq_true, if_false]
    cases hbot : env.isBot a with
    | true => exact ⟨h1, h2, h3, h4⟩
    | false =>
      simp only [Bool.false_eq_true, if_false]
      cases hact : memberActive act a with
      | true => exact ⟨h1, h2, h3, h4⟩
      | false =>
        simp only [List.contains_nil, Bool.false_eq_true, if_false]
        refine ⟨List.nodup_singleton a, h2, h3, ?_⟩
        intro x hx
        rcases List.mem_singleton.1 hx with rfl
        exact (memberActive_false_iff act x).1 hact
  | cons other rest ih =>
    intro act store h
    obtain ⟨h1, h2, h3, h4⟩ := h
    obtain ⟨hno, hrest⟩ := List.nodup_cons.1 h1
    unfold fpLoop
    simp only [pairingRestricted_false, Bool.false_eq_true, if_false]
    cases hbot : env.isBot a with
    | true => exact ⟨h1, h2, h3, h4⟩
    | false =>
      simp only [Bool.false_eq_true, if_false]
      cases hact : memberActive act a with
      | true => exact ⟨h1, h2, h3, h4⟩
      | false =>
        simp only [Bool.false_eq_true, if_false]
        cases hcont : (other :: rest).contains a with
        | true =>
          simp only [if_true]
          exact ⟨h1.erase a, h2, h3, fun x hx => h4 x (List.mem_of_mem_erase hx)⟩
        | false =>
          simp only [Bool.false_eq_true, if_false]
          have hna : a ∉ other :: rest := not_mem_of_contains_false hcont
          cases hfetch : env.fetchOk other with
          | false =>
            simp only [Bool.false_eq_true, if_false]
            exact ih act store
              ⟨hrest, h2, h3, fun x hx => h4 x (List.mem_cons_of_mem _ hx)⟩
          | true =>
            simp only [if_true]
            cases hprov : env.provision with
            | none => exact ⟨hrest, h2, h3,
                fun x hx => h4 x (List.mem_cons_of_mem _ hx)⟩
            | some cid =>
              simp only []
              have hA : activeCount act a = 0 :=
                (memberActive_false_iff act a).1 hact
              have hO : activeCount act other = 0 :=
                h4 other (List.mem_cons_self _ _)
              refine ⟨hrest, keys_dictInsert_nodup act cid _ h2, ?_, ?_⟩
              · intro x
                have hb := activeCount_dictInsert_le act cid
                  ⟨[a, other], cid, env.now, []⟩ x h2
                by_cases hm : x ∈ ([a, other] : List Nat)
                · have h0 : activeCount act x = 0 := by
                    rcases List.mem_cons.1 hm with rfl | hm2
                    · exact hA
                    · rcases List.mem_singleton.1 hm2 with rfl
                      exact hO
                  simp only [hm, if_true, h0, Nat.zero_add] at hb
                  exact hb
                · simp only [hm, if_false, Nat.add_zero] at hb
                  exact le_trans hb (h3 x)
              · intro x hx
                have h0 : activeCount act x = 0 :=
                  h4 x (List.mem_cons_of_mem _ hx)
                have hxa : x ≠ a := by
                  intro e
                  exact hna (e ▸ List.mem_cons_of_mem _ hx)
                have hxo : x ≠ other := fun e => hno (e ▸ hx)
                have hm : x ∉ ([a, other] : List Nat) := by
                  simp [hxa, hxo]
                have hb := activeCount_dictInsert_le act cid
                  ⟨[a, other], cid, env.now, []⟩ x h2
                simp only [hm, if_false, Nat.add_zero, h0] at hb
                exact Nat.le_zero.1 hb

/-- findpartner preserves the strengthened pairing invariant. -/
theorem findpartnerRun_inv (env : Env) (db : StorageDB) (st : CogState)
    (store : Store) (a ch : Nat) (h : InvS st) :
    InvS (findpartnerRun env db st store a ch).2.1 :=
  fpLoop_inv env db a ch st.queue st.active store h

/-- Any sequence of findpartner invocations preserves the strengthened
    pairing invariant. -/
theorem runSteps_inv (db : StorageDB) (steps : List Step) :
    ∀ (st : CogState) (store : Store), InvS st →
      InvS (runSteps db steps st store).1 := by
  induction steps with
  | nil => intro st store h; exact h
  | cons s t ih =>
    intro st store h
    exact ih _ _ (findpartnerRun_inv s.env db st store s.author s.chan h)

/-- No branch of findpartner ever changes the persistence store: every
    storage write raises AttributeError and is swallowed. -/
theorem fpLoop_store_unchanged (env : Env) (db : StorageDB) (a ch : Nat) :
    ∀ (q : List Nat) (act : List (Nat × SessionMeta)) (store : Store),
      (fpLoop env db a ch q act store).2.2 = store := by
  intro q
  induction q with
  | nil =>
    intro act store
    unfold fpLoop
    simp only [pairingRestricted_false, Bool.false_eq_true, if_false,
      trySaveQueue_eq]
    cases env.isBot a <;> cases memberActive act a <;> simp
  | cons other rest ih =>
    intro act store
    unfold fpLoop
    simp only [pairingRestricted_false, Bool.false_eq_true, if_false,
      trySaveQueue_eq, trySaveSession_eq]
    cases env.isBot a <;> cases memberActive act a <;>
      cases (other :: rest).contains a <;> cases env.fetchOk other <;>
        cases env.provision <;> simp [ih]

/-- No branch of findpartner ever produces the wrong-channel rejection:
    the restriction test is dead because the configuration lookup always
    fails. -/
theorem fpLoop_ne_wrongChannel (env : Env) (db : StorageDB) (a ch : Nat) :
    ∀ (q : List Nat) (act : List (Nat × SessionMeta)) (store : Store),
      (fpLoop env db a ch q act store).1 ≠ FPResult.wrongChannel := by
  intro q
  induction q with
  | nil =>
    intro act store
    unfold fpLoop
    simp only [pairingRestricted_false, Bool.false_eq_true, if_false]
    cases env.isBot a <;> cases memberActive act a <;> simp
  | cons other rest ih =>
    intro act store
    unfold fpLoop
    simp only [pairingRestricted_false, Bool.false_eq_true, if_false]
    cases env.isBot a <;> cases memberActive act a <;>
      cases (other :: rest).contains a <;> cases env.fetchOk other <;>
        cases env.provision <;> simp [ih]

/- ---- Claim theorems ---- -/

/-- Claim C1: for every sequence of findpartner pairing requests from
    distinct participants starting from the initial state, no participant
    identifier is a member of more than one active session at the same
    time, and none is simultaneously queued and a member of an active
    session. -/
theorem c1_pairing_invariant (db : StorageDB) (steps : List Step)
    (_hdistinct : (steps.map Step.author).Nodup) :
    PairingInvariant (runSteps db steps ⟨[], []⟩ store0).1 := by
  have h := runSteps_inv db steps ⟨[], []⟩ store0
    ⟨List.nodup_nil, List.nodup_nil,
     fun x => by simp [activeCount],
     fun x hx => absurd hx (List.not_mem_nil x)⟩
  exact ⟨h.2.2.1, fun x hx => (memberActive_false_iff _ x).2 (h.2.2.2 x hx)⟩

/-- Witness for C1: the two-request scenario, participants 1 and 2. -/
theorem c1_pairing_invariant_witness :
    PairingInvariant (runSteps db0 steps12 ⟨[], []⟩ store0).1 :=
  c1_pairing_invariant db0 steps12 (by decide)

/-- Claim C2 (code bug): persistence does not survive a restart. Every
    restart rebuilds the empty state whatever the store holds, because
    storage.load_queue and storage.load_sessions do not exist and the
    AttributeError is swallowed; in particular a queue holding 7, 3, 9
    comes back empty, and an active session is lost. -/
theorem c2_restart_loses_state :
    (∀ store : Store, restartState store = ⟨[], []⟩) ∧
    (restartState (trySaveQueue store0 [7, 3, 9])).queue = [] ∧
    (restartState (trySaveQueue store0 [7, 3, 9])).queue ≠ [7, 3, 9] ∧
    (restartState (trySaveSession store0 meta5)).active = [] :=
  ⟨fun _ => rfl, rfl, by decide, rfl⟩

/-- Claim C3 (code bug): no findpartner path ever writes the queue to the
    persistence store. The pairing path dequeues with no write attempt at
    all, and the enqueue path's storage.save_queue call raises
    AttributeError (the function does not exist) which is swallowed, so
    after enqueuing participant 3 the store still disagrees with the
    in-memory queue. -/
theorem c3_queue_writes_never_reach_store :
    (∀ (env : Env) (db : StorageDB) (st : CogState) (store : Store) (a ch : Nat),
      (findpartnerRun env db st store a ch).2.2 = store) ∧
    (findpartnerRun env0 db0 ⟨[7], []⟩ store0 2 9).1 = .paired 100 ∧
    (findpartnerRun env0 db0 ⟨[7], []⟩ store0 2 9).2.1.queue = [] ∧
    (findpartnerRun env0 db0 ⟨[7], []⟩ store0 2 9).2.2.queueRec = none ∧
    (findpartnerRun env0 db0 ⟨[], []⟩ store0 3 9).2.1.queue = [3] ∧
    (findpartnerRun env0 db0 ⟨[], []⟩ store0 3 9).2.2.queueRec ≠
      some (findpartnerRun env0 db0 ⟨[], []⟩ store0 3 9).2.1.queue :=
  ⟨fun env db st store a ch =>
      fpLoop_store_unchanged env db a ch st.queue st.active store,
   by decide, by decide, by decide, by decide, by decide⟩

/-- Counterexample to C4 as stated: with X = 1 requesting first and Y = 2
    second, the created session's members list is [2, 1], not [1, 2]. -/
theorem c4_members_order_counterexample :
    (findpartnerRun env0 db0 ⟨[], []⟩ store0 1 9).1 = .queued ∧
    (findpartnerRun env0 db0 (findpartnerRun env0 db0 ⟨[], []⟩ store0 1 9).2.1
      (findpartnerRun env0 db0 ⟨[], []⟩ store0 1 9).2.2 2 9).1 = .paired 100 ∧
    (findpartnerRun env0 db0 (findpartnerRun env0 db0 ⟨[], []⟩ store0 1 9).2.1
      (findpartnerRun env0 db0 ⟨[], []⟩ store0 1 9).2.2 2 9).2.1.active =
      [(100, ⟨[2, 1], 100, 0, []⟩)] ∧
    ([2, 1] : List Nat) ≠ [1, 2] :=
  ⟨by decide, by decide, by decide, by decide⟩

/-- Claim C4 as amended: X requesting on an empty queue yields QUEUED, a
    second distinct participant Y yields PAIRED, and the created active
    session's members are [Y, X]: the requester of the pairing call first,
    then the dequeued waiting participant. -/
theorem c4_pair_requester_first (env : Env) (db : StorageDB) (st : CogState)
    (store : Store) (X Y ch cid : Nat)
    (hXY : X ≠ Y) (hbX : env.isBot X = false) (hbY : env.isBot Y = false)
    (haX : memberActive st.active X = false)
    (haY : memberActive st.active Y = false)
    (hq : st.queue = []) (hf : env.fetchOk X = true)
    (hp : env.provision = some cid) :
    (findpartnerRun env db st store X ch).1 = .queued ∧
    (findpartnerRun env db (findpartnerRun env db st store X ch).2.1
      (findpartnerRun env db st store X ch).2.2 Y ch).1 = .paired cid ∧
    (cid, (⟨[Y, X], cid, env.now, []⟩ : SessionMeta)) ∈
      (findpartnerRun env db (findpartnerRun env db st store X ch).2.1
        (findpartnerRun env db st store X ch).2.2 Y ch).2.1.active := by
  have h1 : findpartnerRun env db st store X ch =
      (.queued, ⟨[X], st.active⟩, store) := by
    unfold findpartnerRun
    rw [hq]
    unfold fpLoop
    simp [pairingRestricted_false, hbX, haX, trySaveQueue_eq]
  have hc : ([X].contains Y) = false := by
    simp [List.contains]
    omega
  have h2 : findpartnerRun env db (⟨[X], st.active⟩ : CogState) store Y ch =
      (.paired cid,
       ⟨[], dictInsert st.active cid ⟨[Y, X], cid, env.now, []⟩⟩,
       store) := by
    unfold findpartnerRun
    unfold fpLoop
    simp only [pairingRestricted_false, Bool.false_eq_true, if_false, hbY, haY]
    rw [if_neg (by simp only [hc]; simp)]
    simp only [hf, if_true, hp, trySaveSession_eq]
  rw [h1]
  refine ⟨rfl, ?_, ?_⟩
  · rw [h2]
  · rw [h2]
    exact mem_dictInsert_self st.active cid ⟨[Y, X], cid, env.now, []⟩

/-- Witness for the amended C4 at X = 1, Y = 2, channel 100. -/
theorem c4_pair_requester_first_witness :
    (findpartnerRun env0 db0 ⟨[], []⟩ store0 1 9).1 = .queued ∧
    (findpartnerRun env0 db0 (findpartnerRun env0 db0 ⟨[], []⟩ store0 1 9).2.1
      (findpartnerRun env0 db0 ⟨[], []⟩ store0 1 9).2.2 2 9).1 = .paired 100 ∧
    (100, (⟨[2, 1], 100, env0.now, []⟩ : SessionMeta)) ∈
      (findpartnerRun env0 db0 (findpartnerRun env0 db0 ⟨[], []⟩ store0 1 9).2.1
        (findpartnerRun env0 db0 ⟨[], []⟩ store0 1 9).2.2 2 9).2.1.active :=
  c4_pair_requester_first env0 db0 ⟨[], []⟩ store0 1 2 9 100
    (by decide) rfl rfl rfl rfl rfl rfl rfl

/-- Claim C5: a pairing request from a participant who is neither active
    nor queued, with nothing queued, yields QUEUED; repeating it yields
    TOGGLED_OFF and the queue is empty again. In general a request from an
    already-queued, not-active participant removes exactly that participant
    from the queue and changes nothing else (active map and store are
    untouched). -/
theorem c5_toggle_withdrawal :
    (∀ (env : Env) (db : StorageDB) (st : CogState) (store : Store) (p ch : Nat),
      env.isBot p = false → memberActive st.active p = false → st.queue = [] →
      (findpartnerRun env db st store p ch).1 = .queued ∧
      (findpartnerRun env db (findpartnerRun env db st store p ch).2.1
        (findpartnerRun env db st store p ch).2.2 p ch).1 = .toggledOff ∧
      (findpartnerRun env db (findpartnerRun env db st store p ch).2.1
        (findpartnerRun env db st store p ch).2.2 p ch).2.1.queue = []) ∧
    (∀ (env : Env) (db : StorageDB) (st : CogState) (store : Store) (p ch : Nat),
      env.isBot p = false → memberActive st.active p = false →
      st.queue.contains p = true →
      findpartnerRun env db st store p ch =
        (.toggledOff, ⟨st.queue.erase p, st.active⟩, store)) := by
  constructor
  · intro env db st store p ch hbot hact hq
    have h1 : findpartnerRun env db st store p ch =
        (.queued, ⟨[p], st.active⟩, store) := by
      unfold findpartnerRun
      rw [hq]
      unfold fpLoop
      simp [pairingRestricted_false, hbot, hact, trySaveQueue_eq]
    rw [h1]
    refine ⟨rfl, ?_, ?_⟩ <;>
      (unfold findpartnerRun
       unfold fpLoop
       simp [pairingRestricted_false, hbot, hact, trySaveQueue_eq])
  · intro env db st store p ch hbot hact hc
    unfold findpartnerRun
    unfold fpLoop
    simp only [pairingRestricted_false, Bool.false_eq_true, if_false, hbot, hact]
    rw [if_pos hc, trySaveQueue_eq]

/-- Witness for C5 at participant 4 on the empty state, and a direct
    withdrawal from the one-element queue. -/
theorem c5_toggle_withdrawal_witness :
    ((findpartnerRun env0 db0 ⟨[], []⟩ store0 4 9).1 = .queued ∧
     (findpartnerRun env0 db0 (findpartnerRun env0 db0 ⟨[], []⟩ store0 4 9).2.1
       (findpartnerRun env0 db0 ⟨[], []⟩ store0 4 9).2.2 4 9).1 = .toggledOff ∧
     (findpartnerRun env0 db0 (findpartnerRun env0 db0 ⟨[], []⟩ store0 4 9).2.1
       (findpartnerRun env0 db0 ⟨[], []⟩ store0 4 9).2.2 4 9).2.1.queue = []) ∧
    findpartnerRun env0 db0 ⟨[4], []⟩ store0 4 9 =
      (.toggledOff, ⟨([4] : List Nat).erase 4, []⟩, store0) :=
  ⟨c5_toggle_withdrawal.1 env0 db0 ⟨[], []⟩ store0 4 9 rfl rfl rfl,
   c5_toggle_withdrawal.2 env0 db0 ⟨[4], []⟩ store0 4 9 rfl rfl (by decide)⟩

set_option maxRecDepth 8000 in
/-- Counterexample to C6 as stated: the sweeper does close the session after
    301 idle seconds, but the closure reason is the literal string
    Auto-closed due to inactivity, not auto-closed: inactivity; and a session
    310 seconds past creation with no cached messages is left untouched
    because channel history at 290 seconds, not the creation time, supplies
    the last-activity timestamp. -/
theorem c6_reason_counterexample :
    (cleanerStep senv301 db0 ⟨[], [(5, meta5)]⟩ store0 5 meta5).1 =
      .autoClosed "Auto-closed due to inactivity"
        (some ⟨"Auto-closed due to inactivity",
              transcriptHeading senv301 meta5 "Auto-closed due to inactivity",
              transcriptLines meta5.messages [histA, histB]⟩) ∧
    "Auto-closed due to inactivity" ≠ "auto-closed: inactivity" ∧
    cleanerStep senvHist db0 ⟨[], [(6, meta6)]⟩ store0 6 meta6 =
      (.stillActive, ⟨[], [(6, meta6)]⟩, store0) ∧
    senvHist.now - meta6.created_at = 310 :=
  ⟨rfl, by decide, by decide, by decide⟩

/-- Claim C6 as amended: on a sweep tick, a session whose backing channel
    still exists is closed, with reason Auto-closed due to inactivity,
    exactly when now minus its last activity (last cached message time, else
    newest channel-history time, else creation time) reaches the 300-second
    threshold; below the threshold the session is left entirely unchanged. -/
theorem c6_idle_threshold (env : SweepEnv) (db : StorageDB) (st : CogState)
    (store : Store) (cid : Nat) (meta : SessionMeta)
    (hch : env.channelExists cid = true) :
    ((cleanerStep env db st store cid meta).1 = .stillActive ↔
      env.now - lastActivity env meta < AUTO_CLOSE_SECONDS) ∧
    ((∃ d, (cleanerStep env db st store cid meta).1 =
        .autoClosed "Auto-closed due to inactivity" d) ↔
      AUTO_CLOSE_SECONDS ≤ env.now - lastActivity env meta) ∧
    (env.now - lastActivity env meta < AUTO_CLOSE_SECONDS →
      cleanerStep env db st store cid meta = (.stillActive, st, store)) := by
  unfold cleanerStep
  rw [hch]
  by_cases hlt : env.now - lastActivity env meta < AUTO_CLOSE_SECONDS
  · simp [hlt]
  · simp [hlt]
    omega

/-- Witness for the amended C6: the session idle 301 seconds closes, the
    session idle 100 seconds is untouched. -/
theorem c6_idle_threshold_witness :
    (((cleanerStep senv301 db0 ⟨[], [(5, meta5)]⟩ store0 5 meta5).1 = .stillActive ↔
        senv301.now - lastActivity senv301 meta5 < AUTO_CLOSE_SECONDS) ∧
     ((∃ d, (cleanerStep senv301 db0 ⟨[], [(5, meta5)]⟩ store0 5 meta5).1 =
         .autoClosed "Auto-closed due to inactivity" d) ↔
       AUTO_CLOSE_SECONDS ≤ senv301.now - lastActivity senv301 meta5) ∧
     (senv301.now - lastActivity senv301 meta5 < AUTO_CLOSE_SECONDS →
       cleanerStep senv301 db0 ⟨[], [(5, meta5)]⟩ store0 5 meta5 =
         (.stillActive, ⟨[], [(5, meta5)]⟩, store0))) ∧
    (((cleanerStep senv100 db0 ⟨[], [(5, meta5)]⟩ store0 5 meta5).1 = .stillActive ↔
        senv100.now - lastActivity senv100 meta5 < AUTO_CLOSE_SECONDS) ∧
     ((∃ d, (cleanerStep senv100 db0 ⟨[], [(5, meta5)]⟩ store0 5 meta5).1 =
         .autoClosed "Auto-closed due to inactivity" d) ↔
       AUTO_CLOSE_SECONDS ≤ senv100.now - lastActivity senv100 meta5) ∧
     (senv100.now - lastActivity senv100 meta5 < AUTO_CLOSE_SECONDS →
       cleanerStep senv100 db0 ⟨[], [(5, meta5)]⟩ store0 5 meta5 =
         (.stillActive, ⟨[], [(5, meta5)]⟩, store0))) :=
  ⟨c6_idle_threshold senv301 db0 ⟨[], [(5, meta5)]⟩ store0 5 meta5 rfl,
   c6_idle_threshold senv100 db0 ⟨[], [(5, meta5)]⟩ store0 5 meta5 rfl⟩

set_option maxRecDepth 8000 in
/-- Counterexample to C7 as stated: a closure whose cache holds message id 2
    at time 10 while platform history also holds the older uncached starter
    message id 1 at time 5 emits the cached line first and the older
    late-fetched line after it, so the emitted lines are not ordered
    oldest-first across origins. -/
theorem c7_not_oldest_first_counterexample :
    (log_session senv301 db0 ⟨[], [(5, meta5)]⟩ store0 meta5 "Closed by command").1 =
      some ⟨"Closed by command", transcriptHeading senv301 meta5 "Closed by command",
            [cachedLine msgB, histLine histA]⟩ ∧
    transcriptTimes meta5.messages [histA, histB] = [some 10, some 5] ∧
    ¬ List.Chain' (fun x y => x ≤ y) [(10 : Int), 5] ∧
    histA.created_at < 10 :=
  ⟨rfl, by decide, by simp [List.chain'_cons], by decide⟩

/-- Claim C7 as amended: every emitted transcript is the heading followed
    by the cached message lines in capture order, then the late-fetched
    history lines deduplicated by message id (none of them repeats a cached
    id) in fetch order, appended after the cached lines; oldest-first
    ordering holds within each origin but is not enforced across origins. -/
theorem c7_transcript_structure (env : SweepEnv) (db : StorageDB)
    (st : CogState) (store : Store) (meta : SessionMeta) (reason : String)
    (doc : TranscriptDoc)
    (hdoc : (log_session env db st store meta reason).1 = some doc) :
    doc.heading = transcriptHeading env meta reason ∧
    doc.lines = meta.messages.map cachedLine ++
      (lateHist meta.messages
        (if env.channelExists meta.text_channel_id then
          env.history meta.text_channel_id else [])).map histLine ∧
    (∀ h ∈ lateHist meta.messages
        (if env.channelExists meta.text_channel_id then
          env.history meta.text_channel_id else []),
      h.id ∉ meta.messages.map (fun c => c.id)) ∧
    List.Sublist
      (lateHist meta.messages
        (if env.channelExists meta.text_channel_id then
          env.history meta.text_channel_id else []))
      (if env.channelExists meta.text_channel_id then
        env.history meta.text_channel_id else []) := by
  unfold log_session at hdoc
  simp only [resolveLogsDest_fallback] at hdoc
  by_cases hcond : (!env.fallbackLogsOk ||
      (transcriptLines meta.messages
        (if env.channelExists meta.text_channel_id then
          env.history meta.text_channel_id else [])).isEmpty) = true
  · rw [if_pos hcond] at hdoc
    exact absurd hdoc (by simp)
  · rw [if_neg hcond] at hdoc
    have hd : doc = ⟨reason, transcriptHeading env meta reason,
        transcriptLines meta.messages
          (if env.channelExists meta.text_channel_id then
            env.history meta.text_channel_id else [])⟩ := by
      injection hdoc with h
      exact h.symm
    subst hd
    refine ⟨rfl, rfl, ?_, List.filter_sublist _⟩
    intro h hmem
    have := List.of_mem_filter hmem
    simpa using this

set_option maxRecDepth 8000 in
/-- Witness for the amended C7 at the meta5 closure. -/
theorem c7_transcript_structure_witness :
    (⟨"Closed by command", transcriptHeading senv301 meta5 "Closed by command",
      transcriptLines meta5.messages
        (if senv301.channelExists meta5.text_channel_id then
          senv301.history meta5.text_channel_id else [])⟩ : TranscriptDoc).heading =
      transcriptHeading senv301 meta5 "Closed by command" ∧
    (⟨"Closed by command", transcriptHeading senv301 meta5 "Closed by command",
      transcriptLines meta5.messages
        (if senv301.channelExists meta5.text_channel_id then
          senv301.history meta5.text_channel_id else [])⟩ : TranscriptDoc).lines =
      meta5.messages.map cachedLine ++
      (lateHist meta5.messages
        (if senv301.channelExists meta5.text_channel_id then
          senv301.history meta5.text_channel_id else [])).map histLine ∧
    (∀ h ∈ lateHist meta5.messages
        (if senv301.channelExists meta5.text_channel_id then
          senv301.history meta5.text_channel_id else []),
      h.id ∉ meta5.messages.map (fun c => c.id)) ∧
    List.Sublist
      (lateHist meta5.messages
        (if senv301.channelExists meta5.text_channel_id then
          senv301.history meta5.text_channel_id else []))
      (if senv301.channelExists meta5.text_channel_id then
        senv301.history meta5.text_channel_id else []) :=
  c7_transcript_structure senv301 db0 ⟨[], [(5, meta5)]⟩ store0 meta5
    "Closed by command"
    ⟨"Closed by command", transcriptHeading senv301 meta5 "Closed by command",
     transcriptLines meta5.messages
       (if senv301.channelExists meta5.text_channel_id then
         senv301.history meta5.text_channel_id else [])⟩ rfl

/-- Counterexample to C8 as stated: with participant 7 waiting, a pairing
    request by participant 1 under provisioning failure leaves the queue
    empty, so 7 is not re-enqueued at the head, and the outcome is the
    propagated unhandled exception rather than a surfaced result. -/
theorem c8_provision_failure_counterexample :
    findpartnerRun envNoProv db0 ⟨[7], []⟩ store0 1 9 =
      (.exn, ⟨[], []⟩, store0) ∧
    ([] : List Nat) ≠ [7] :=
  ⟨by decide, by decide⟩

/-- Claim C8 as amended: when channel provisioning raises during the pairing
    transaction, no session is created and nothing is written, but the
    already-dequeued waiting participant is lost from the queue (not
    re-enqueued) and the failure propagates to the caller as an unhandled
    exception. -/
theorem c8_provision_failure_drops_waiter (env : Env) (db : StorageDB)
    (st : CogState) (store : Store) (a ch other : Nat) (rest : List Nat)
    (hbot : env.isBot a = false) (hact : memberActive st.active a = false)
    (hnq : st.queue.contains a = false) (hq : st.queue = other :: rest)
    (hf : env.fetchOk other = true) (hp : env.provision = none) :
    findpartnerRun env db st store a ch = (.exn, ⟨rest, st.active⟩, store) := by
  unfold findpartnerRun
  rw [hq]
  unfold fpLoop
  simp only [pairingRestricted_false, Bool.false_eq_true, if_false, hbot, hact]
  rw [hq] at hnq
  simp only [hnq, Bool.false_eq_true, if_false, hf, if_true, hp]

/-- Witness for the amended C8 with participant 7 waiting and requester 1. -/
theorem c8_provision_failure_drops_waiter_witness :
    findpartnerRun envNoProv db0 ⟨[7], []⟩ store0 1 9 =
      (.exn, ⟨[], []⟩, store0) :=
  c8_provision_failure_drops_waiter envNoProv db0 ⟨[7], []⟩ store0 1 9 7 []
    rfl rfl (by decide) rfl rfl rfl

/-- Counterexample to C9 as stated: when the sweeper meets an active session
    whose channel is gone, it deletes the session from the in-memory map and
    moves on; no transcript is attempted (the outcome carries no document)
    and the persisted session record is left in the store. -/
theorem c9_channel_gone_counterexample :
    cleanerStep senvGone db0 ⟨[], [(5, meta5)]⟩ ⟨none, [(5, meta5)]⟩ 5 meta5 =
      (.channelGone, ⟨[], []⟩, ⟨none, [(5, meta5)]⟩) ∧
    (⟨none, [(5, meta5)]⟩ : Store).sessions ≠ [] :=
  ⟨by decide, by decide⟩

/-- Claim C9 as amended: on meeting an active session whose backing channel
    no longer exists, the sweeper only deletes the session from the
    in-memory registry and skips everything else: no transcript emission is
    attempted and the persistence store is untouched. -/
theorem c9_channel_gone_behavior (env : SweepEnv) (db : StorageDB)
    (st : CogState) (store : Store) (cid : Nat) (meta : SessionMeta)
    (hch : env.channelExists cid = false) :
    cleanerStep env db st store cid meta =
      (.channelGone, ⟨st.queue, dictRemove st.active cid⟩, store) := by
  unfold cleanerStep
  rw [hch]
  simp

/-- Witness for the amended C9 at the deleted channel 5. -/
theorem c9_channel_gone_behavior_witness :
    cleanerStep senvGone db0 ⟨[], [(5, meta5)]⟩ store0 5 meta5 =
      (.channelGone, ⟨[], dictRemove [(5, meta5)] 5⟩, store0) :=
  c9_channel_gone_behavior senvGone db0 ⟨[], [(5, meta5)]⟩ store0 5 meta5 rfl

/-- Claim C10: the configuration lookup always returns None (the call to
    storage.get_guild_config omits the required guild_id and the TypeError
    is swallowed); hence the pairing-channel restriction never rejects an
    invocation, and transcript delivery always resolves the fallback channel
    named findpartner-logs, never a configured destination. -/
theorem c10_config_lookup_dead :
    (∀ db : StorageDB, getConfig db = none) ∧
    (∀ (db : StorageDB) (ch : Nat), pairingRestricted db ch = false) ∧
    (∀ (env : Env) (db : StorageDB) (st : CogState) (store : Store) (a ch : Nat),
      (findpartnerRun env db st store a ch).1 ≠ .wrongChannel) ∧
    (∀ (db : StorageDB) (f : Nat → Bool),
      resolveLogsDest db f = .fallbackFindpartnerLogs) :=
  ⟨fun _ => rfl, fun _ _ => rfl,
   fun env db st store a ch =>
     fpLoop_ne_wrongChannel env db a ch st.queue st.active store,
   fun _ _ => rfl⟩

end StudyPartnerBot
